import Mathlib

/-!
Shallow embedding of the route-acquisition and map-synchronization
orchestrator of the safe-commute frontend
(src/safe-commute-frontend/src/App.jsx), together with theorems settling
the specification claims about it.

Modelling conventions:
* JS numbers appearing only in comparisons and as opaque data are modelled
  as `Rat`.
* Optional / possibly-undefined JS fields are `Option` values; JS truthiness
  of an optional string field (`if (zone.phone)`) is `strTruthy`, which is
  false for a missing field and for the empty string.
* Remote calls are modelled by passing the remote response as an explicit
  environment value; a thrown / rejected call is an explicit failure
  constructor.
* React `setX` state updates are explicit record updates on `SessionState`;
  `alert(...)` is modelled by appending the message to an `alerts` trace.
-/

/-- A WGS84 coordinate pair. -/
structure Coord where
  lat : Rat
  lon : Rat
deriving DecidableEq

/-- JS truthiness of an optional string field: `undefined`/`null` and the
empty string are falsy, any other string is truthy. -/
def strTruthy : Option String → Bool
  | none => false
  | some s => s != ""

/-- `charsStartWith pat l` holds when `pat` is an initial segment of `l`
(character-by-character). -/
def charsStartWith : List Char → List Char → Bool
  | [], _ => true
  | _ :: _, [] => false
  | a :: as, b :: bs => a == b && charsStartWith as bs

/-- `charsContain pat l` holds when `pat` occurs contiguously inside `l`:
the model of JS `String.prototype.includes`. -/
def charsContain (pat : List Char) : List Char → Bool
  | [] => charsStartWith pat []
  | c :: rest => charsStartWith pat (c :: rest) || charsContain pat rest

/-- Model of JS `s.includes(pat)`: contiguous substring test. -/
def strIncludes (s pat : String) : Bool :=
  charsContain pat.toList s.toList

/-- Model of JS `s.toLowerCase()` on the ASCII strings this code compares. -/
def strLower (s : String) : String :=
  String.mk (s.toList.map Char.toLower)

/-- A safe zone returned by the panic endpoint
(`{lat, lon, type?, name?, address?, phone?, distance_m?}`). -/
structure SafeZone where
  lat : Rat
  lon : Rat
  type : Option String := none
  name : Option String := none
  address : Option String := none
  phone : Option String := none
  distance_m : Option Rat := none
deriving DecidableEq

/-- Embedding of `getEmergencyNumber` (App.jsx lines 99-107):
phone first, then absent type, then the keyword cascade on the
lower-cased type. -/
def getEmergencyNumber (zone : SafeZone) : String :=
  if strTruthy zone.phone then zone.phone.getD ""
  else if !strTruthy zone.type then "112"
  else
    let t := strLower (zone.type.getD "")
    if strIncludes t "police" then "100"
    else if strIncludes t "hospital" then "108"
    else if strIncludes t "fire" then "101"
    else "112"

/-- Transcription of the specification text for `emergencyNumber`
(spec section 4.3): phone present → verbatim; type absent → "112"; else
case-insensitive substring match police → "100", hospital → "108",
fire → "101", otherwise "112", first rule winning. Presence of an
optional string field is its JS truthiness. -/
def emergencyNumberSpec (zone : SafeZone) : String :=
  if strTruthy zone.phone then zone.phone.getD ""
  else if !strTruthy zone.type then "112"
  else if strIncludes (strLower (zone.type.getD "")) "police" then "100"
  else if strIncludes (strLower (zone.type.getD "")) "hospital" then "108"
  else if strIncludes (strLower (zone.type.getD "")) "fire" then "101"
  else "112"

/-- Embedding of `getSafetyLabel` (App.jsx lines 109-113). The JS argument
is a number used only in comparisons, modelled as `Rat`. -/
def getSafetyLabel (score : Rat) : String :=
  if score ≥ 75 then "safe"
  else if score ≥ 40 then "moderate"
  else "unsafe"

/-- One raw geocoder match as used by `geocodeLocation`: the numeric
parsing of the wire lat/lon strings (`parseFloat`) is abstracted to the
parsed values. -/
structure GeoRaw where
  lat : Rat
  lon : Rat
  display_name : String
deriving DecidableEq

/-- Outcome of the outbound geocoder request: a network or service failure
(the rejected axios promise, caught at line 158), or a JSON list of
matches. -/
inductive GeoResponse where
  | failure : GeoResponse
  | results : List GeoRaw → GeoResponse
deriving DecidableEq

/-- A resolved location `{lat, lon, display}` as built at lines 151-155. -/
structure Location where
  lat : Rat
  lon : Rat
  display : String
deriving DecidableEq

/-- Embedding of `geocodeLocation` (App.jsx lines 144-162): empty query
→ `none`; network failure → `none` (the catch branch); zero matches →
`none`; otherwise the first match. -/
def geocodeLocation (query : String) (resp : GeoResponse) : Option Location :=
  if query = "" then none
  else
    match resp with
    | .failure => none
    | .results rs =>
      match rs with
      | [] => none
      | r :: _ => some { lat := r.lat, lon := r.lon, display := r.display_name }

/-- One route kind of the `/route` payload: `{coords, distance_km,
time_min, safety_score}`. `safety_score` is optional because the code
guards it with `?.safety_score || 0`. -/
structure RoutePayload where
  coords : List Coord
  distance_km : Rat
  time_min : Rat
  safety_score : Option Rat := none
deriving DecidableEq

/-- A stored route object: the payload fields spread together with the
derived `safety_label` (App.jsx lines 190-197). -/
structure RouteData where
  coords : List Coord
  distance_km : Rat
  time_min : Rat
  safety_score : Option Rat
  safety_label : String
deriving DecidableEq

/-- `{...res.data.fastest, safety_label: getSafetyLabel(res.data.fastest?.safety_score || 0)}`:
spread of the payload plus the derived label, with a missing or zero
score coerced to 0 by `|| 0`. -/
def mkRouteData (p : RoutePayload) : RouteData :=
  { coords := p.coords
    distance_km := p.distance_km
    time_min := p.time_min
    safety_score := p.safety_score
    safety_label := getSafetyLabel (p.safety_score.getD 0) }

/-- Body of a successful `/route` response. Either route kind may be
missing from a malformed payload, hence `Option`. -/
structure RouteResponse where
  fastest : Option RoutePayload
  safest : Option RoutePayload
deriving DecidableEq

/-- The remote environment one `fetchRoutes` call runs against: the two
geocoder responses and the `/route` outcome (`Except.error` is the
rejected axios promise caught at line 202). -/
structure FetchEnv where
  srcResp : GeoResponse
  dstResp : GeoResponse
  routeResp : Except Unit RouteResponse

/-- The session state owned by the `App` component (App.jsx lines
117-128), with an `alerts` trace modelling the `alert(...)` calls. -/
structure SessionState where
  city : String
  srcQuery : String
  dstQuery : String
  srcCoords : Option Location := none
  dstCoords : Option Location := none
  fastest : Option RouteData := none
  safest : Option RouteData := none
  activeTab : String := "safest"
  safeZones : List SafeZone := []
  reports : List Coord := []
  alerts : List String := []
deriving DecidableEq

/-- First synchronous block of `fetchRoutes` (App.jsx lines 166-173),
running once both geocode awaits have resolved: on any geocode failure,
alert and stop; otherwise store the resolved coordinates and proceed to
issue the route request. The `Bool` says whether the call proceeds. -/
def fetchBlock1 (env : FetchEnv) (s : SessionState) : SessionState × Bool :=
  match geocodeLocation s.srcQuery env.srcResp,
        geocodeLocation s.dstQuery env.dstResp with
  | some src, some dst =>
    ({ s with srcCoords := some src, dstCoords := some dst }, true)
  | _, _ =>
    ({ s with alerts := s.alerts ++ ["Invalid source or destination"] }, false)

/-- Second synchronous block of `fetchRoutes` (App.jsx lines 174-205),
running when the `/route` await resolves. A rejected request goes to the
catch branch. On a fulfilled response, the logging lines 186-187
dereference `res.data.fastest.coords` and `res.data.safest.coords`, so a
payload missing either kind throws a TypeError that the same catch
swallows, before any state write. Only a payload with both kinds reaches
the `setFastest` / `setSafest` / `setSafeZones([])` writes. -/
def fetchBlock2 (env : FetchEnv) (s : SessionState) : SessionState :=
  match env.routeResp with
  | .error _ => { s with alerts := s.alerts ++ ["Error fetching routes"] }
  | .ok resp =>
    match resp.fastest, resp.safest with
    | some f, some sf =>
      { s with
        fastest := some (mkRouteData f)
        safest := some (mkRouteData sf)
        safeZones := [] }
    | _, _ => { s with alerts := s.alerts ++ ["Error fetching routes"] }

/-- One complete `fetchRoutes` call (App.jsx lines 165-206) run to
completion without interleaving. -/
def fetchRoutesRun (env : FetchEnv) (s : SessionState) : SessionState :=
  match fetchBlock1 env s with
  | (s1, ok) => cond ok (fetchBlock2 env s1) s1

/-- Two overlapping `fetchRoutes` calls A then B, where request B is
issued while request A is in flight and the route response of A arrives
after the route response of B. The state mutations of each call are its
two synchronous blocks, applied at the corresponding event-loop turns:
A geocodes resolve, B geocodes resolve, B route response, A route
response. -/
def supersededTrace (envA envB : FetchEnv) (s0 : SessionState) : SessionState :=
  match fetchBlock1 envA s0 with
  | (sA, okA) =>
    match fetchBlock1 envB sA with
    | (sB, okB) =>
      let s3 := cond okB (fetchBlock2 envB sB) sB
      cond okA (fetchBlock2 envA s3) s3

/-- Outcome of the `/panic` request as inspected at line 215: rejection,
a fulfilled response whose `safe_zones` field is falsy (absent or null),
or a present `safe_zones` array (possibly empty — a JS array is truthy
even when empty). -/
inductive PanicResp where
  | failure : PanicResp
  | missingZones : PanicResp
  | zones : List SafeZone → PanicResp
deriving DecidableEq

/-- Embedding of `triggerPanic` (App.jsx lines 209-224). -/
def triggerPanic (resp : PanicResp) (s : SessionState) : SessionState :=
  match s.srcCoords with
  | none => { s with alerts := s.alerts ++ ["Set a source first!"] }
  | some _ =>
    match resp with
    | .failure => { s with alerts := s.alerts ++ ["Panic API failed"] }
    | .missingZones =>
      { s with alerts := s.alerts ++ ["No safe locations found"] }
    | .zones zs => { s with safeZones := zs }

/-- The coordinate list a route contributes to `MapBounds`: an absent
route contributes nothing. -/
def coordsOf : Option RouteData → List Coord
  | none => []
  | some r => r.coords

/-- The concatenation built by `MapBounds` (App.jsx lines 84-86): fastest
coordinates first, then safest, each included only when non-empty. -/
def mapBoundsCoords (fastest safest : Option RouteData) : List Coord :=
  let c1 : List Coord := []
  let c2 :=
    match fastest with
    | some f => if f.coords.length > 0 then c1 ++ f.coords else c1
    | none => c1
  match safest with
  | some sf => if sf.coords.length > 0 then c2 ++ sf.coords else c2
  | none => c2

/-- `boundsFor`: `some cs` means the map is fitted to the minimal region
enclosing `cs` with the fixed padding; `none` is NoFit (the `useEffect`
at lines 88-93 guards `coords.length > 0` and otherwise does nothing). -/
def boundsFor (fastest safest : Option RouteData) : Option (List Coord) :=
  if (mapBoundsCoords fastest safest).length > 0 then
    some (mapBoundsCoords fastest safest)
  else none

/-- The map viewport, modelled as the last fit applied: the fitted
coordinate list and the fixed padding margin, or `none` when no fit has
ever been applied. -/
def Viewport := Option (List Coord × (Nat × Nat))
deriving instance DecidableEq for Viewport

/-- Effect of one `MapBounds` recomputation on the viewport: fit when
`boundsFor` yields a region, leave the viewport unchanged on NoFit. -/
def applyMapBounds (fastest safest : Option RouteData) (vp : Viewport) :
    Viewport :=
  match boundsFor fastest safest with
  | some cs => some (cs, (40, 40))
  | none => vp

/-! ### Demo data used by concrete witnesses and counterexamples -/

/-- Raw geocoder match for a demo source query. -/
def rawA : GeoRaw := { lat := 13, lon := 78, display_name := "Indiranagar, Bengaluru" }

/-- Raw geocoder match for a demo destination query. -/
def rawB : GeoRaw := { lat := 14, lon := 77, display_name := "MG Road, Bengaluru" }

/-- Demo resolved source location (what `geocodeLocation` builds from `rawA`). -/
def locA : Location := { lat := 13, lon := 78, display := "Indiranagar, Bengaluru" }

/-- Demo fastest-route payload of request A. -/
def payloadF : RoutePayload :=
  { coords := [{ lat := 1, lon := 1 }, { lat := 2, lon := 2 }]
    distance_km := 5, time_min := 18, safety_score := some 60 }

/-- Demo safest-route payload of request A. -/
def payloadS : RoutePayload :=
  { coords := [{ lat := 1, lon := 1 }, { lat := 3, lon := 3 }]
    distance_km := 6, time_min := 24, safety_score := some 85 }

/-- Demo fastest-route payload of request B, distinct from `payloadF`. -/
def payloadF2 : RoutePayload :=
  { coords := [{ lat := 5, lon := 5 }, { lat := 6, lon := 6 }]
    distance_km := 7, time_min := 30, safety_score := some 45 }

/-- Demo safest-route payload of request B, distinct from `payloadS`. -/
def payloadS2 : RoutePayload :=
  { coords := [{ lat := 5, lon := 5 }, { lat := 7, lon := 7 }]
    distance_km := 8, time_min := 35, safety_score := some 90 }

/-- Session state right after the user typed the demo queries. -/
def s0 : SessionState := { city := "bengaluru", srcQuery := "Indiranagar", dstQuery := "MG Road" }

/-- A police safe zone used as a pre-existing overlay entry. -/
def zoneP : SafeZone := { lat := 1, lon := 1, type := some "police", name := some "Station 1" }

/-- A hospital safe zone returned by a later panic call. -/
def zoneH : SafeZone := { lat := 2, lon := 2, type := some "hospital", name := some "Clinic 2" }

/-- Environment where both geocodes succeed and the route call fails. -/
def envFail : FetchEnv :=
  { srcResp := .results [rawA], dstResp := .results [rawB], routeResp := .error () }

/-- Environment where the whole call for request A succeeds. -/
def envOkA : FetchEnv :=
  { srcResp := .results [rawA], dstResp := .results [rawB]
    routeResp := .ok { fastest := some payloadF, safest := some payloadS } }

/-- Environment where the whole call for request B succeeds with payloads
distinct from those of request A. -/
def envOkB : FetchEnv :=
  { srcResp := .results [rawA], dstResp := .results [rawB]
    routeResp := .ok { fastest := some payloadF2, safest := some payloadS2 } }

/-- Environment whose route payload is missing the safest kind. -/
def envMalformed : FetchEnv :=
  { srcResp := .results [rawA], dstResp := .results [rawB]
    routeResp := .ok { fastest := some payloadF, safest := none } }

/-- Session state with routes already shown and a safe-zone overlay. -/
def sReady : SessionState :=
  { city := "bengaluru", srcQuery := "Indiranagar", dstQuery := "MG Road"
    srcCoords := some locA
    fastest := some (mkRouteData payloadF2)
    safest := some (mkRouteData payloadS2)
    safeZones := [zoneP] }

/-! ### Safety label characterization lemmas -/

/-- `getSafetyLabel` yields `"safe"` exactly on scores ≥ 75. -/
lemma getSafetyLabel_eq_safe_iff (q : Rat) :
    getSafetyLabel q = "safe" ↔ 75 ≤ q := by
  unfold getSafetyLabel
  split_ifs with h1 h2
  · exact iff_of_true rfl h1
  · exact iff_of_false (by decide) h1
  · exact iff_of_false (by decide) h1

/-- `getSafetyLabel` yields `"moderate"` exactly on scores in [40, 75). -/
lemma getSafetyLabel_eq_moderate_iff (q : Rat) :
    getSafetyLabel q = "moderate" ↔ 40 ≤ q ∧ q < 75 := by
  unfold getSafetyLabel
  split_ifs with h1 h2
  · exact iff_of_false (by decide) (fun hc => absurd h1 (not_le.mpr hc.2))
  · exact iff_of_true rfl ⟨h2, not_le.mp h1⟩
  · exact iff_of_false (by decide) (fun hc => h2 hc.1)

/-- `getSafetyLabel` yields `"unsafe"` exactly on scores < 40. -/
lemma getSafetyLabel_eq_unsafe_iff (q : Rat) :
    getSafetyLabel q = "unsafe" ↔ q < 40 := by
  unfold getSafetyLabel
  split_ifs with h1 h2
  · exact iff_of_false (by decide)
      (not_lt.mpr (le_trans (by norm_num) h1))
  · exact iff_of_false (by decide) (not_lt.mpr h2)
  · exact iff_of_true rfl (not_le.mp h2)

/-- C5: for every integer score, the label is `safe` iff score ≥ 75,
`moderate` iff 40 ≤ score < 75, `unsafe` iff score < 40, and the
boundary values 75, 74, 40, 39 fall in the stated buckets. -/
theorem getSafetyLabel_int_buckets :
    ∀ s : Int,
      (getSafetyLabel (s : Rat) = "safe" ↔ 75 ≤ s) ∧
      (getSafetyLabel (s : Rat) = "moderate" ↔ 40 ≤ s ∧ s < 75) ∧
      (getSafetyLabel (s : Rat) = "unsafe" ↔ s < 40) ∧
      getSafetyLabel 75 = "safe" ∧
      getSafetyLabel 74 = "moderate" ∧
      getSafetyLabel 40 = "moderate" ∧
      getSafetyLabel 39 = "unsafe" := by
  intro s
  refine ⟨?_, ?_, ?_, ?_, ?_, ?_, ?_⟩
  · rw [getSafetyLabel_eq_safe_iff]
    exact_mod_cast Iff.rfl
  · rw [getSafetyLabel_eq_moderate_iff]
    exact_mod_cast Iff.rfl
  · rw [getSafetyLabel_eq_unsafe_iff]
    exact_mod_cast Iff.rfl
  · rw [getSafetyLabel_eq_safe_iff]
  · rw [getSafetyLabel_eq_moderate_iff]
    norm_num
  · rw [getSafetyLabel_eq_moderate_iff]
    norm_num
  · rw [getSafetyLabel_eq_unsafe_iff]
    norm_num

/-- C10: `getSafetyLabel` is total over all numeric inputs: every score
maps to one of the three labels, any score above 100 is still `safe`,
and any negative score is `unsafe`. -/
theorem getSafetyLabel_total_numeric :
    ∀ q : Rat,
      (getSafetyLabel q = "safe" ∨ getSafetyLabel q = "moderate" ∨
        getSafetyLabel q = "unsafe") ∧
      (100 < q → getSafetyLabel q = "safe") ∧
      (q < 0 → getSafetyLabel q = "unsafe") := by
  intro q
  refine ⟨?_, ?_, ?_⟩
  · unfold getSafetyLabel
    split_ifs <;> simp
  · intro h
    rw [getSafetyLabel_eq_safe_iff]
    linarith
  · intro h
    rw [getSafetyLabel_eq_unsafe_iff]
    linarith

/-- Witness for C10 at the out-of-range scores 101 and -1. -/
theorem getSafetyLabel_total_numeric_witness :
    getSafetyLabel 101 = "safe" ∧ getSafetyLabel (-1) = "unsafe" :=
  ⟨(getSafetyLabel_total_numeric 101).2.1 (by norm_num),
   (getSafetyLabel_total_numeric (-1)).2.2 (by norm_num)⟩

/-- C6: `getEmergencyNumber` follows the fixed-order first-match-wins
rule cascade of the specification (phone verbatim, then absent type,
then the police / hospital / fire keyword matches, else "112"),
including the precedence examples: phone beats a matching type, a
keyword is found case-insensitively as a substring, and a type with
several keywords takes the first rule. -/
theorem getEmergencyNumber_rules :
    (∀ z : SafeZone, getEmergencyNumber z = emergencyNumberSpec z) ∧
    getEmergencyNumber
      { lat := 0, lon := 0, phone := some "555", type := some "police" } = "555" ∧
    getEmergencyNumber
      { lat := 0, lon := 0, type := some "Police Station" } = "100" ∧
    getEmergencyNumber { lat := 0, lon := 0, type := none } = "112" ∧
    getEmergencyNumber
      { lat := 0, lon := 0, type := some "Community Center" } = "112" ∧
    getEmergencyNumber
      { lat := 0, lon := 0, type := some "City HOSPITAL" } = "108" ∧
    getEmergencyNumber
      { lat := 0, lon := 0, type := some "Fire Brigade" } = "101" ∧
    getEmergencyNumber
      { lat := 0, lon := 0, type := some "police hospital fire" } = "100" :=
  ⟨fun _ => rfl, by decide, by decide, by decide, by decide, by decide,
    by decide, by decide⟩

/-- C8 counterexample: at the concrete query "Indiranagar", a
network/service failure of the geocoder and a zero-match response
produce the same outcome, so the two failure modes are not distinct
conditions. -/
theorem geocode_failure_equals_notfound :
    geocodeLocation "Indiranagar" GeoResponse.failure =
      geocodeLocation "Indiranagar" (GeoResponse.results []) := by
  decide

/-- C8 amended: `geocodeLocation` collapses both failure modes to the
same `none` outcome for every query — the caller cannot tell a service
failure from a zero-match result. -/
theorem geocode_failure_collapses_to_none :
    ∀ q : String,
      geocodeLocation q GeoResponse.failure = none ∧
      geocodeLocation q (GeoResponse.results []) = none := by
  intro q
  constructor
  · unfold geocodeLocation
    split <;> rfl
  · unfold geocodeLocation
    split <;> rfl

/-- The guarded concatenation of `MapBounds` equals the plain
concatenation: skipping an empty or absent coordinate list changes
nothing. -/
lemma mapBoundsCoords_eq (f s : Option RouteData) :
    mapBoundsCoords f s = coordsOf f ++ coordsOf s := by
  unfold mapBoundsCoords coordsOf
  cases f with
  | none =>
    cases s with
    | none => rfl
    | some sf =>
      simp only [List.nil_append]
      split_ifs with h
      · rfl
      · simp only [List.length_pos, ne_eq, not_not] at h
        simp [h]
  | some ff =>
    cases s with
    | none =>
      simp only [List.append_nil]
      split_ifs with h
      · rfl
      · simp only [List.length_pos, ne_eq, not_not] at h
        simp [h]
    | some sf =>
      dsimp only
      split_ifs with h1 h2 h2 <;>
        simp only [List.length_pos, ne_eq, not_not] at * <;>
        simp_all

/-- C7: `boundsFor` yields NoFit exactly when both route inputs are
absent or both coordinate sequences are empty; on NoFit the viewport is
left unchanged; otherwise the fitted region covers the concatenation of
the present routes, fastest coordinates first, then safest. -/
theorem boundsFor_noFit_rule :
    ∀ (f s : Option RouteData) (vp : Viewport),
      (boundsFor f s = none ↔
        (f = none ∧ s = none) ∨ (coordsOf f = [] ∧ coordsOf s = [])) ∧
      (boundsFor f s = none → applyMapBounds f s vp = vp) ∧
      (boundsFor f s ≠ none →
        boundsFor f s = some (coordsOf f ++ coordsOf s)) := by
  intro f s vp
  refine ⟨?_, ?_, ?_⟩
  · unfold boundsFor
    rw [mapBoundsCoords_eq]
    constructor
    · intro h
      split_ifs at h with hl
      refine Or.inr ?_
      simp only [not_lt, Nat.le_zero, List.length_eq_zero,
        List.append_eq_nil] at hl
      exact hl
    · intro h
      have hnil : coordsOf f ++ coordsOf s = [] := by
        rcases h with ⟨hf, hs⟩ | ⟨hf, hs⟩
        · subst hf; subst hs; rfl
        · rw [hf, hs]; rfl
      rw [hnil]
      rfl
  · intro h
    unfold applyMapBounds
    rw [h]
  · intro h
    unfold boundsFor at h ⊢
    rw [mapBoundsCoords_eq] at h ⊢
    split_ifs at h ⊢ with hl
    · rfl
    · exact absurd rfl h

/-- Witness for C7: with no routes the viewport stays untouched, and with
one present route the fit covers exactly its coordinates. -/
theorem boundsFor_noFit_rule_witness :
    applyMapBounds none none (none : Viewport) = none ∧
    boundsFor (some (mkRouteData payloadF)) none =
      some (coordsOf (some (mkRouteData payloadF)) ++ coordsOf none) :=
  ⟨(boundsFor_noFit_rule none none none).2.1 rfl,
   (boundsFor_noFit_rule (some (mkRouteData payloadF)) none none).2.2
     (by decide)⟩

/-! ### fetchRoutes block lemmas -/

/-- The geocoding block never touches the route results, the safe-zone
overlay, or the query inputs. -/
lemma fetchBlock1_frame (env : FetchEnv) (s : SessionState) :
    ((fetchBlock1 env s).1).fastest = s.fastest ∧
    ((fetchBlock1 env s).1).safest = s.safest ∧
    ((fetchBlock1 env s).1).safeZones = s.safeZones ∧
    ((fetchBlock1 env s).1).srcQuery = s.srcQuery ∧
    ((fetchBlock1 env s).1).dstQuery = s.dstQuery := by
  unfold fetchBlock1
  cases geocodeLocation s.srcQuery env.srcResp <;>
    cases geocodeLocation s.dstQuery env.dstResp <;>
      exact ⟨rfl, rfl, rfl, rfl, rfl⟩

/-- When both geocodes succeed, the geocoding block stores the two
resolved coordinates and proceeds to the route request. -/
lemma fetchBlock1_success (env : FetchEnv) (s : SessionState)
    (src dst : Location)
    (hs : geocodeLocation s.srcQuery env.srcResp = some src)
    (hd : geocodeLocation s.dstQuery env.dstResp = some dst) :
    fetchBlock1 env s =
      ({ s with srcCoords := some src, dstCoords := some dst }, true) := by
  unfold fetchBlock1
  rw [hs, hd]

/-- A rejected route request only appends the error alert. -/
lemma fetchBlock2_error (env : FetchEnv) (s : SessionState)
    (h : env.routeResp = .error ()) :
    fetchBlock2 env s =
      { s with alerts := s.alerts ++ ["Error fetching routes"] } := by
  unfold fetchBlock2
  rw [h]

/-- A fulfilled but malformed route payload (missing either kind) throws
at the logging dereference and lands in the same catch: only the error
alert is appended, no state field is written. -/
lemma fetchBlock2_malformed (env : FetchEnv) (s : SessionState)
    (resp : RouteResponse) (hok : env.routeResp = .ok resp)
    (h : resp.fastest = none ∨ resp.safest = none) :
    fetchBlock2 env s =
      { s with alerts := s.alerts ++ ["Error fetching routes"] } := by
  unfold fetchBlock2
  rw [hok]
  dsimp only
  rcases h with h | h
  · rw [h]
  · rw [h]
    cases hf : resp.fastest <;> rfl

/-- A fulfilled well-formed route payload writes both route kinds
together and clears the safe-zone overlay. -/
lemma fetchBlock2_ok (env : FetchEnv) (s : SessionState)
    (resp : RouteResponse) (f sf : RoutePayload)
    (hok : env.routeResp = .ok resp)
    (hf : resp.fastest = some f) (hsf : resp.safest = some sf) :
    fetchBlock2 env s =
      { s with
        fastest := some (mkRouteData f)
        safest := some (mkRouteData sf)
        safeZones := [] } := by
  unfold fetchBlock2
  rw [hok]
  dsimp only
  rw [hf, hsf]

/-- C2: when the route payload is missing either route kind, the whole
call is treated as failed (the error alert is surfaced) and the session
route results keep their pre-call values — no partial write of one kind. -/
theorem malformed_route_no_partial_write :
    ∀ (env : FetchEnv) (s : SessionState) (resp : RouteResponse)
      (src dst : Location),
      geocodeLocation s.srcQuery env.srcResp = some src →
      geocodeLocation s.dstQuery env.dstResp = some dst →
      env.routeResp = .ok resp →
      resp.fastest = none ∨ resp.safest = none →
      (fetchRoutesRun env s).fastest = s.fastest ∧
      (fetchRoutesRun env s).safest = s.safest ∧
      (fetchRoutesRun env s).alerts = s.alerts ++ ["Error fetching routes"] := by
  intro env s resp src dst hs hd hok hmal
  unfold fetchRoutesRun
  rw [fetchBlock1_success env s src dst hs hd]
  dsimp only [cond]
  rw [fetchBlock2_malformed env _ resp hok hmal]
  exact ⟨rfl, rfl, rfl⟩

/-- Witness for C2: the demo malformed payload (safest missing) leaves
the previously shown route results untouched. -/
theorem malformed_route_no_partial_write_witness :
    (fetchRoutesRun envMalformed sReady).fastest = sReady.fastest ∧
    (fetchRoutesRun envMalformed sReady).safest = sReady.safest ∧
    (fetchRoutesRun envMalformed sReady).alerts =
      sReady.alerts ++ ["Error fetching routes"] :=
  malformed_route_no_partial_write envMalformed sReady
    { fastest := some payloadF, safest := none } locA
    { lat := 14, lon := 77, display := "MG Road, Bengaluru" }
    (by decide) (by decide) rfl (Or.inr rfl)

/-- C9: when both geocodes succeed but the route request then fails, the
resolved source and destination coordinates are still overwritten with
the newly geocoded values (they are assigned before the route request is
issued), while the route results keep their prior values. -/
theorem route_failure_keeps_new_coords :
    ∀ (env : FetchEnv) (s : SessionState) (src dst : Location),
      geocodeLocation s.srcQuery env.srcResp = some src →
      geocodeLocation s.dstQuery env.dstResp = some dst →
      env.routeResp = .error () →
      (fetchRoutesRun env s).srcCoords = some src ∧
      (fetchRoutesRun env s).dstCoords = some dst ∧
      (fetchRoutesRun env s).fastest = s.fastest ∧
      (fetchRoutesRun env s).safest = s.safest := by
  intro env s src dst hs hd herr
  unfold fetchRoutesRun
  rw [fetchBlock1_success env s src dst hs hd]
  dsimp only [cond]
  rw [fetchBlock2_error env _ herr]
  exact ⟨rfl, rfl, rfl, rfl⟩

/-- Witness for C9: the demo failing route call still updates both
resolved coordinates. -/
theorem route_failure_keeps_new_coords_witness :
    (fetchRoutesRun envFail s0).srcCoords = some locA ∧
    (fetchRoutesRun envFail s0).dstCoords =
      some { lat := 14, lon := 77, display := "MG Road, Bengaluru" } ∧
    (fetchRoutesRun envFail s0).fastest = s0.fastest ∧
    (fetchRoutesRun envFail s0).safest = s0.safest :=
  route_failure_keeps_new_coords envFail s0 locA
    { lat := 14, lon := 77, display := "MG Road, Bengaluru" }
    (by decide) (by decide) rfl

/-- C4 counterexample: a "get routes" trigger whose route fetch fails
leaves the previously shown safe-zone overlay in place — `safeZones` is
not cleared on every trigger, only on a successful fetch. -/
theorem failed_fetch_keeps_safeZones :
    (fetchRoutesRun envFail sReady).safeZones = [zoneP] ∧
    [zoneP] ≠ ([] : List SafeZone) := by
  constructor
  · rfl
  · decide

/-- C4 amended: every "get routes" trigger whose geocoding and route
fetch both succeed with a well-formed payload clears `safeZones`. -/
theorem successful_fetch_clears_safeZones :
    ∀ (env : FetchEnv) (s : SessionState) (src dst : Location)
      (resp : RouteResponse) (f sf : RoutePayload),
      geocodeLocation s.srcQuery env.srcResp = some src →
      geocodeLocation s.dstQuery env.dstResp = some dst →
      env.routeResp = .ok resp →
      resp.fastest = some f →
      resp.safest = some sf →
      (fetchRoutesRun env s).safeZones = [] := by
  intro env s src dst resp f sf hs hd hok hf hsf
  unfold fetchRoutesRun
  rw [fetchBlock1_success env s src dst hs hd]
  dsimp only [cond]
  rw [fetchBlock2_ok env _ resp f sf hok hf hsf]

/-- Witness for C4 amended: the demo successful fetch clears the
pre-existing overlay of `sReady`. -/
theorem successful_fetch_clears_safeZones_witness :
    (fetchRoutesRun envOkA sReady).safeZones = [] :=
  successful_fetch_clears_safeZones envOkA sReady locA
    { lat := 14, lon := 77, display := "MG Road, Bengaluru" }
    { fastest := some payloadF, safest := some payloadS }
    payloadF payloadS (by decide) (by decide) rfl rfl rfl

/-- C1 counterexample: requests A then B overlap, B completes first and
the stale response of A arrives last; the final route results are those
of A, which differ from the results of B — the stale response does
mutate `fastest`/`safest`. -/
theorem stale_response_overwrites_result :
    (supersededTrace envOkA envOkB s0).fastest = some (mkRouteData payloadF) ∧
    (supersededTrace envOkA envOkB s0).safest = some (mkRouteData payloadS) ∧
    mkRouteData payloadF ≠ mkRouteData payloadF2 ∧
    mkRouteData payloadS ≠ mkRouteData payloadS2 := by
  refine ⟨rfl, rfl, ?_, ?_⟩ <;> decide

/-- C1 amended: the orchestrator is last-response-wins, not
last-request-wins: with requests A then B both fully succeeding and the
response of A arriving after the response of B, the final
`fastest`/`safest` equal the results of A. -/
theorem last_response_wins :
    ∀ (envA envB : FetchEnv) (s : SessionState)
      (srcA dstA srcB dstB : Location) (fA sfA fB sfB : RoutePayload),
      geocodeLocation s.srcQuery envA.srcResp = some srcA →
      geocodeLocation s.dstQuery envA.dstResp = some dstA →
      geocodeLocation s.srcQuery envB.srcResp = some srcB →
      geocodeLocation s.dstQuery envB.dstResp = some dstB →
      envA.routeResp = .ok { fastest := some fA, safest := some sfA } →
      envB.routeResp = .ok { fastest := some fB, safest := some sfB } →
      (supersededTrace envA envB s).fastest = some (mkRouteData fA) ∧
      (supersededTrace envA envB s).safest = some (mkRouteData sfA) := by
  intro envA envB s srcA dstA srcB dstB fA sfA fB sfB hA1 hA2 hB1 hB2 hAr hBr
  unfold supersededTrace
  rw [fetchBlock1_success envA s srcA dstA hA1 hA2]
  dsimp only
  rw [fetchBlock1_success envB
    { s with srcCoords := some srcA, dstCoords := some dstA } srcB dstB hB1 hB2]
  dsimp only [cond]
  rw [fetchBlock2_ok envB _ _ fB sfB hBr rfl rfl]
  rw [fetchBlock2_ok envA _ _ fA sfA hAr rfl rfl]
  exact ⟨rfl, rfl⟩

/-- Witness for C1 amended at the demo overlapping requests. -/
theorem last_response_wins_witness :
    (supersededTrace envOkA envOkB s0).fastest = some (mkRouteData payloadF) ∧
    (supersededTrace envOkA envOkB s0).safest = some (mkRouteData payloadS) :=
  last_response_wins envOkA envOkB s0 locA
    { lat := 14, lon := 77, display := "MG Road, Bengaluru" } locA
    { lat := 14, lon := 77, display := "MG Road, Bengaluru" }
    payloadF payloadS payloadF2 payloadS2
    (by decide) (by decide) (by decide) (by decide) rfl rfl

/-- C3 counterexample: a successful panic call returning an empty
`safe_zones` array (truthy in JS even when empty) replaces the existing
non-empty overlay with the empty list and surfaces no notification —
the overlay is cleared, not preserved, and no "no safe locations found"
alert is raised. -/
theorem empty_zones_clears_overlay_silently :
    (triggerPanic (PanicResp.zones []) sReady).safeZones = [] ∧
    sReady.safeZones ≠ [] ∧
    (triggerPanic (PanicResp.zones []) sReady).alerts = sReady.alerts := by
  refine ⟨rfl, ?_, rfl⟩
  decide

/-- C3 amended: with a resolved source, a fulfilled panic response with a
present `safe_zones` field replaces `safeZones` wholesale — including by
the empty list — with no notification; the "no safe locations found"
notification is surfaced only when the field is absent, and then the
existing overlay is left unchanged. -/
theorem panic_zones_field_semantics :
    ∀ (s : SessionState) (loc : Location),
      s.srcCoords = some loc →
      (∀ zs : List SafeZone,
        (triggerPanic (PanicResp.zones zs) s).safeZones = zs ∧
        (triggerPanic (PanicResp.zones zs) s).alerts = s.alerts) ∧
      ((triggerPanic PanicResp.missingZones s).safeZones = s.safeZones ∧
        (triggerPanic PanicResp.missingZones s).alerts =
          s.alerts ++ ["No safe locations found"]) := by
  intro s loc h
  constructor
  · intro zs
    unfold triggerPanic
    rw [h]
    exact ⟨rfl, rfl⟩
  · unfold triggerPanic
    rw [h]
    exact ⟨rfl, rfl⟩

/-- Witness for C3 amended at the demo state: a non-empty result replaces
the overlay, an absent field keeps it. -/
theorem panic_zones_field_semantics_witness :
    (triggerPanic (PanicResp.zones [zoneH]) sReady).safeZones = [zoneH] ∧
    (triggerPanic PanicResp.missingZones sReady).safeZones =
      sReady.safeZones :=
  ⟨((panic_zones_field_semantics sReady locA rfl).1 [zoneH]).1,
   (panic_zones_field_semantics sReady locA rfl).2.1⟩
